import Mathlib

/-!
# MergeGuard — verification of the review-pipeline embedding

A shallow embedding, in Lean, of the MergeGuard source (a Python CLI that
orchestrates a four-stage agent pipeline to review GitHub pull requests),
together with theorems settling the specification claims about it.

Embedding conventions:
* JSON values are the inductive `Json`; Python's `json.dumps`/`json.loads`
  round-trips are modelled by working on `Json` values directly.
* Functions that raise Python exceptions return `Except String _` or
  `Option _` (where `none` models the raised exception).
* External effects (Mistral API calls, GitHub HTTP calls, `ast.parse`) are
  modelled by explicit stub inputs: a record of call outcomes, or a function
  argument giving the outcome of each call.  The sequence of remote
  operations a function performs is returned as an explicit trace.
* Machine strings are Lean `String`s; Python `len`/slicing on `str` counts
  characters, as Lean's `String.length`/`String.take` do.
-/

/-! ## JSON data model -/

/-- A JSON value, as produced by Python's `json.loads`.  Numbers are
integers: every number appearing in the embedded code paths is integral. -/
inductive Json where
  | null
  | bool (b : Bool)
  | num (n : Int)
  | str (s : String)
  | arr (elems : List Json)
  | obj (fields : List (String × Json))

/-- Key lookup in a JSON object's field list (Python `dict` access; the
embedded objects have pairwise distinct keys). -/
def jsonGet : List (String × Json) → String → Option Json
  | [], _ => none
  | (k, v) :: rest, key => if k == key then some v else jsonGet rest key

/-- Field access on a JSON value: `none` when the value is not an object or
the key is absent. -/
def jsonField : Json → String → Option Json
  | .obj fields, key => jsonGet fields key
  | _, _ => none

/-! ## `schemas.py` — the ReviewReport schema -/

/-- `schemas.py` `Severity`: review comment severity levels. -/
inductive Severity where
  | critical
  | warning
  | suggestion
  | nitpick
deriving DecidableEq

/-- `schemas.py` `Category`: review comment categories. -/
inductive Category where
  | correctness
  | security
  | performance
  | maintainability
  | style
deriving DecidableEq

/-- `schemas.py` `Recommendation`: final review recommendation. -/
inductive Recommendation where
  | approve
  | request_changes
deriving DecidableEq

/-- `schemas.py` `ReviewComment`: a single review comment. -/
structure ReviewComment where
  file : String
  line : Option Int
  severity : Severity
  category : Category
  message : String
  suggestion : Option String
  verified : Bool
deriving DecidableEq

/-- `schemas.py` `ReviewReport`: the final structured review report. -/
structure ReviewReport where
  summary : String
  comments : List ReviewComment
  overall_score : Int
  recommendation : Recommendation
  files_reviewed : Int
  total_issues : Int
deriving DecidableEq

/-- A JSON value read as a string (pydantic `str` field). -/
def asStr : Json → Option String
  | .str s => some s
  | _ => none

/-- A JSON value read as an integer (pydantic `int` field; booleans are not
accepted for `int` fields). -/
def asInt : Json → Option Int
  | .num n => some n
  | _ => none

/-- `Severity` enum validation. -/
def readSeverity : Json → Option Severity
  | .str "critical" => some .critical
  | .str "warning" => some .warning
  | .str "suggestion" => some .suggestion
  | .str "nitpick" => some .nitpick
  | _ => none

/-- `Category` enum validation. -/
def readCategory : Json → Option Category
  | .str "correctness" => some .correctness
  | .str "security" => some .security
  | .str "performance" => some .performance
  | .str "maintainability" => some .maintainability
  | .str "style" => some .style
  | _ => none

/-- `Recommendation` enum validation. -/
def readRecommendation : Json → Option Recommendation
  | .str "approve" => some .approve
  | .str "request_changes" => some .request_changes
  | _ => none

/-- An `Optional[int]` field: missing or `null` defaults to `None`. -/
def getOptInt (fields : List (String × Json)) (key : String) : Option (Option Int) :=
  match jsonGet fields key with
  | none => some none
  | some .null => some none
  | some (.num n) => some (some n)
  | some _ => none

/-- An `Optional[str]` field: missing or `null` defaults to `None`. -/
def getOptStr (fields : List (String × Json)) (key : String) : Option (Option String) :=
  match jsonGet fields key with
  | none => some none
  | some .null => some none
  | some (.str s) => some (some s)
  | some _ => none

/-- A `bool` field with pydantic default `False` when missing. -/
def getBoolDefFalse (fields : List (String × Json)) (key : String) : Option Bool :=
  match jsonGet fields key with
  | none => some false
  | some (.bool b) => some b
  | some _ => none

/-- Validation of one `ReviewComment` (`schemas.py` lines 41–57): `file`,
`severity`, `category`, `message` required; `line` and `suggestion`
optional; `verified` defaults to `false`. -/
def readReviewComment : Json → Option ReviewComment
  | .obj fields => do
    let file ← jsonGet fields "file" >>= asStr
    let line ← getOptInt fields "line"
    let sev ← jsonGet fields "severity" >>= readSeverity
    let cat ← jsonGet fields "category" >>= readCategory
    let msg ← jsonGet fields "message" >>= asStr
    let sugg ← getOptStr fields "suggestion"
    let ver ← getBoolDefFalse fields "verified"
    pure ⟨file, line, sev, cat, msg, sugg, ver⟩
  | _ => none

/-- The `comments` field (`default_factory=list`): missing defaults to `[]`,
otherwise a list whose every element validates as a `ReviewComment`. -/
def readComments (fields : List (String × Json)) : Option (List ReviewComment) :=
  match jsonGet fields "comments" with
  | none => some []
  | some (.arr xs) => xs.mapM readReviewComment
  | some _ => none

/-- Validation of a parsed report against `schemas.py` `ReviewReport`
(lines 60–83): every required field present and well-typed, enum fields in
their declared value sets, `overall_score ∈ [0,100]`, `files_reviewed ≥ 0`,
`total_issues ≥ 0`.  Note the schema places no constraint relating
`total_issues` to the length of `comments`. -/
def validateReviewReport : Json → Option ReviewReport
  | .obj fields => do
    let summary ← jsonGet fields "summary" >>= asStr
    let comments ← readComments fields
    let score ← jsonGet fields "overall_score" >>= asInt
    guard (0 ≤ score ∧ score ≤ 100)
    let recm ← jsonGet fields "recommendation" >>= readRecommendation
    let fr ← jsonGet fields "files_reviewed" >>= asInt
    guard (0 ≤ fr)
    let ti ← jsonGet fields "total_issues" >>= asInt
    guard (0 ≤ ti)
    pure ⟨summary, comments, score, recm, fr, ti⟩
  | _ => none

/-- `main.py` line 229: the pipeline's terminal step is
`json.loads(run_result.outputs[-1].content)` and nothing else — the input is
the outcome of the JSON parse (`none` models a `json.JSONDecodeError`), and
any successfully parsed value is returned as the report unvalidated. -/
def run_terminal_parse (parsed : Option Json) : Except String Json :=
  match parsed with
  | some j => .ok j
  | none => .error "json decode error"

/-- Scenario C's well-formed terminal report. -/
def scenarioCReport : Json :=
  .obj [("summary", .str "Looks good overall."), ("comments", .arr []),
        ("overall_score", .num 95), ("recommendation", .str "approve"),
        ("files_reviewed", .num 3), ("total_issues", .num 0)]

/-- Scenario C's mutated report: `total_issues` changed to 1 while the
comment list stays empty. -/
def scenarioCBadCount : Json :=
  .obj [("summary", .str "Looks good overall."), ("comments", .arr []),
        ("overall_score", .num 95), ("recommendation", .str "approve"),
        ("files_reviewed", .num 3), ("total_issues", .num 1)]

/-- Scenario C's report with an out-of-range score. -/
def scenarioCScore101 : Json :=
  .obj [("summary", .str "Looks good overall."), ("comments", .arr []),
        ("overall_score", .num 101), ("recommendation", .str "approve"),
        ("files_reviewed", .num 3), ("total_issues", .num 0)]

/-- Scenario C's report with a value outside the recommendation enum. -/
def scenarioCBadEnum : Json :=
  .obj [("summary", .str "Looks good overall."), ("comments", .arr []),
        ("overall_score", .num 95), ("recommendation", .str "maybe"),
        ("files_reviewed", .num 3), ("total_issues", .num 0)]

/-- Scenario C's report missing the required `summary` field. -/
def scenarioCNoSummary : Json :=
  .obj [("comments", .arr []), ("overall_score", .num 95),
        ("recommendation", .str "approve"), ("files_reviewed", .num 3),
        ("total_issues", .num 0)]

/-! ## `tool_impl.py` — diff and file-content truncation -/

/-- The marker `tool_impl.py` appends to an over-long diff. -/
def diffTruncMarker : String := "\n\n... [diff truncated at 120000 chars]"

/-- The marker `tool_impl.py` appends to over-long file content. -/
def fileTruncMarker : String := "\n\n... [file truncated at 80000 chars]"

/-- `tool_impl.py` `fetch_pr_diff`, lines 66–71: the transformation applied
to the diff text received from GitHub before returning it. -/
def fetch_pr_diff_truncate (diff : String) : String :=
  if diff.length > 120000 then diff.take 120000 ++ diffTruncMarker else diff

/-- `tool_impl.py` `read_file`, lines 118–122: the transformation applied to
the file content received from GitHub before returning it. -/
def read_file_truncate (content : String) : String :=
  if content.length > 80000 then content.take 80000 ++ fileTruncMarker else content

/-- A 120,001-character diff, one character over the ceiling. -/
def bigDiff : String := String.mk (List.replicate 120001 'a')

/-- An 80,001-character file, one character over the ceiling. -/
def bigFile : String := String.mk (List.replicate 80001 'b')

/-! ## `main.py` — `parse_pr_url`

`parse_pr_url` runs `re.search(r"github\.com/([^/]+)/([^/]+)/pull/(\d+)", url)`
and raises `ValueError` when there is no match.  Because `[^/]+` cannot match
`/`, the regex admits no backtracking: at each candidate start position the
match is forced to be the literal `github.com/`, the maximal nonempty run of
non-`/` characters, a `/`, another maximal nonempty non-`/` run, the literal
`/pull/`, and a maximal nonempty digit run.  `re.search` takes the first
start position (left to right) at which this succeeds.  The embedding scans
positions the same way; `none` models the raised `ValueError`. -/

/-- The literal `github.com/` of the pattern. -/
def ghLit : List Char := "github.com/".toList

/-- The literal `/pull/` of the pattern. -/
def pullLit : List Char := "/pull/".toList

/-- Strip an exact literal from the front of a character list. -/
def stripLit : List Char → List Char → Option (List Char)
  | [], rest => some rest
  | _ :: _, [] => none
  | p :: ps, c :: cs => if c == p then stripLit ps cs else none

/-- The character class `[^/]`. -/
def notSlash (c : Char) : Bool := c != '/'

/-- Decimal value of a digit run, as Python's `int()` computes it. -/
def digitsToNat (ds : List Char) : Nat :=
  ds.foldl (fun a c => a * 10 + (c.toNat - 48)) 0

/-- Expect a single `/` (the literal separating the two `[^/]+` groups). -/
def expectSlash (l : List Char) : Option (List Char) :=
  match l with
  | c :: rest => if c == '/' then some rest else none
  | [] => none

/-- Attempt the (backtracking-free) pattern match at one start position,
returning the three captures `(owner, repo, pr_number)` on success. -/
def matchPRAt (s : List Char) : Option (String × String × Nat) :=
  (stripLit ghLit s).bind fun r1 =>
    if r1.takeWhile notSlash = [] then none else
    (expectSlash (r1.dropWhile notSlash)).bind fun r2 =>
      if r2.takeWhile notSlash = [] then none else
      (stripLit pullLit (r2.dropWhile notSlash)).bind fun r3 =>
        if r3.takeWhile Char.isDigit = [] then none else
        some (String.mk (r1.takeWhile notSlash), String.mk (r2.takeWhile notSlash),
              digitsToNat (r3.takeWhile Char.isDigit))

/-- `re.search`: try the pattern at every start position, leftmost first. -/
def scanPR : List Char → Option (String × String × Nat)
  | [] => none
  | c :: cs => (matchPRAt (c :: cs)).orElse fun _ => scanPR cs

/-- `main.py` `parse_pr_url` (lines 43–52): extract `(owner, repo,
pr_number)`; `none` models the `ValueError` raised on no match. -/
def parse_pr_url (url : String) : Option (String × String × Nat) :=
  scanPR url.toList

/-- A character list shaped like one full match of the pattern:
`github.com/` + nonempty non-`/` run + `/` + nonempty non-`/` run +
`/pull/` + nonempty digit run. -/
def PRShaped (core : List Char) : Prop :=
  ∃ o r d, core = ghLit ++ o ++ '/' :: (r ++ pullLit ++ d) ∧
    o ≠ [] ∧ (∀ c ∈ o, notSlash c = true) ∧
    r ≠ [] ∧ (∀ c ∈ r, notSlash c = true) ∧
    d ≠ [] ∧ (∀ c ∈ d, c.isDigit = true)

/-- The string contains a pattern-shaped substring, with arbitrary text
before and after it. -/
def ContainsPR (s : List Char) : Prop :=
  ∃ pre core post, s = pre ++ (core ++ post) ∧ PRShaped core

theorem stripLit_self (lit rest : List Char) : stripLit lit (lit ++ rest) = some rest := by
  induction lit with
  | nil => rfl
  | cons c cs ih => simp [stripLit, ih]

theorem stripLit_eq (lit : List Char) :
    ∀ s rest, stripLit lit s = some rest → s = lit ++ rest := by
  induction lit with
  | nil =>
    intro s rest h
    simp [stripLit] at h
    simp [h]
  | cons c cs ih =>
    intro s rest h
    cases s with
    | nil => simp [stripLit] at h
    | cons a as =>
      rw [stripLit] at h
      by_cases hac : a == c
      · rw [if_pos hac] at h
        have := ih as rest h
        simp [this, eq_of_beq hac]
      · rw [if_neg hac] at h
        exact absurd h (by simp)

theorem takeWhile_all_append (p : Char → Bool) (xs : List Char) (y : Char) (ys : List Char)
    (hx : ∀ c ∈ xs, p c = true) (hy : p y = false) :
    (xs ++ y :: ys).takeWhile p = xs ∧ (xs ++ y :: ys).dropWhile p = y :: ys := by
  induction xs with
  | nil => simp [List.takeWhile_cons, List.dropWhile_cons, hy]
  | cons a as ih =>
    have ha : p a = true := hx a (by simp)
    have ihr := ih (fun c hc => hx c (by simp [hc]))
    simp [List.takeWhile_cons, List.dropWhile_cons, ha, ihr.1, ihr.2]

theorem mem_takeWhile_prop (p : Char → Bool) :
    ∀ (l : List Char), ∀ c ∈ l.takeWhile p, p c = true := by
  intro l
  induction l with
  | nil => simp
  | cons a as ih =>
    intro c hc
    rw [List.takeWhile_cons] at hc
    cases hpa : p a with
    | false => rw [hpa] at hc; simp at hc
    | true =>
      rw [hpa] at hc
      simp at hc
      rcases hc with hc | hc
      · rw [hc]; exact hpa
      · exact ih c hc

theorem expectSlash_eq_some (l r : List Char) (h : expectSlash l = some r) : l = '/' :: r := by
  cases l with
  | nil => simp [expectSlash] at h
  | cons c cs =>
    rw [expectSlash] at h
    by_cases hc : c == '/'
    · rw [if_pos hc] at h
      simp at h
      simp [eq_of_beq hc, h]
    · rw [if_neg hc] at h
      exact absurd h (by simp)

theorem expectSlash_slash (r : List Char) : expectSlash ('/' :: r) = some r := by
  simp [expectSlash]

/-- Decomposition: a successful single-position match exhibits a
pattern-shaped decomposition of its input. -/
theorem matchPRAt_shaped (s : List Char) (t : String × String × Nat)
    (h : matchPRAt s = some t) : ∃ core post, s = core ++ post ∧ PRShaped core := by
  unfold matchPRAt at h
  rw [Option.bind_eq_some] at h
  obtain ⟨r1, h1, h⟩ := h
  have hs1 : s = ghLit ++ r1 := stripLit_eq _ _ _ h1
  split at h
  · exact absurd h (by simp)
  rename_i h2
  rw [Option.bind_eq_some] at h
  obtain ⟨r2, hexp, h⟩ := h
  have h3 : r1.dropWhile notSlash = '/' :: r2 := expectSlash_eq_some _ _ hexp
  split at h
  · exact absurd h (by simp)
  rename_i h4
  rw [Option.bind_eq_some] at h
  obtain ⟨r3, h5, h⟩ := h
  split at h
  · exact absurd h (by simp)
  rename_i h6
  refine ⟨ghLit ++ r1.takeWhile notSlash ++
      '/' :: (r2.takeWhile notSlash ++ pullLit ++ r3.takeWhile Char.isDigit),
    r3.dropWhile Char.isDigit, ?_, ?_⟩
  · have er1 : r1.takeWhile notSlash ++ r1.dropWhile notSlash = r1 :=
      List.takeWhile_append_dropWhile notSlash r1
    have er2 : r2.takeWhile notSlash ++ r2.dropWhile notSlash = r2 :=
      List.takeWhile_append_dropWhile notSlash r2
    have er3 : r3.takeWhile Char.isDigit ++ r3.dropWhile Char.isDigit = r3 :=
      List.takeWhile_append_dropWhile Char.isDigit r3
    have hdrop : r2.dropWhile notSlash = pullLit ++ r3 := stripLit_eq _ _ _ h5
    have hr1 : r1 = r1.takeWhile notSlash ++ '/' :: r2 := by rw [← h3]; exact er1.symm
    have hr2 : r2 = r2.takeWhile notSlash ++ (pullLit ++ r3) := by
      rw [← hdrop]; exact er2.symm
    have hr3 : r3 = r3.takeWhile Char.isDigit ++ r3.dropWhile Char.isDigit := er3.symm
    rw [hs1]
    conv_lhs => rw [hr1, hr2, hr3]
    simp
  · exact ⟨r1.takeWhile notSlash, r2.takeWhile notSlash, r3.takeWhile Char.isDigit,
      by simp, h2, mem_takeWhile_prop _ _, h4, mem_takeWhile_prop _ _, h6,
      mem_takeWhile_prop _ _⟩

/-- Synthesis: the single-position match succeeds on any input that begins
with a pattern-shaped core, whatever follows it. -/
theorem matchPRAt_of_shaped (core post : List Char) (h : PRShaped core) :
    (matchPRAt (core ++ post)).isSome = true := by
  obtain ⟨o, r, d, hcore, ho, hoP, hr, hrP, hd, hdP⟩ := h
  subst hcore
  have e1 : (ghLit ++ o ++ '/' :: (r ++ pullLit ++ d)) ++ post
      = ghLit ++ (o ++ '/' :: (r ++ (pullLit ++ (d ++ post)))) := by simp
  rw [e1]
  unfold matchPRAt
  rw [stripLit_self, Option.some_bind]
  have hSlash : notSlash '/' = false := by decide
  have t1 := takeWhile_all_append notSlash o '/' (r ++ (pullLit ++ (d ++ post))) hoP hSlash
  rw [t1.1, t1.2, if_neg ho, expectSlash_slash, Option.some_bind]
  have e2 : r ++ (pullLit ++ (d ++ post)) = r ++ '/' :: ("pull/".toList ++ (d ++ post)) := by
    simp [pullLit]
  rw [e2]
  have t2 := takeWhile_all_append notSlash r '/' ("pull/".toList ++ (d ++ post)) hrP hSlash
  rw [t2.1, t2.2, if_neg hr]
  have e3 : ('/' :: ("pull/".toList ++ (d ++ post)) : List Char) = pullLit ++ (d ++ post) := by
    simp [pullLit]
  rw [e3, stripLit_self, Option.some_bind]
  cases d with
  | nil => exact absurd rfl hd
  | cons c ds =>
    have hc : c.isDigit = true := hdP c (by simp)
    rw [List.cons_append, List.takeWhile_cons, hc]
    simp

/-- A successful single-position match at the head of the input makes the
whole scan succeed. -/
theorem scanPR_isSome_of_matchPRAt (s : List Char) (h : (matchPRAt s).isSome = true) :
    (scanPR s).isSome = true := by
  cases s with
  | nil => exact absurd h (by decide)
  | cons c cs =>
    rw [scanPR]
    cases hm : matchPRAt (c :: cs) with
    | some t => simp
    | none => rw [hm] at h; exact absurd h (by simp)

/-- `re.search` semantics of `parse_pr_url`'s scan: it succeeds exactly on
the character lists containing a pattern-shaped substring. -/
theorem scanPR_isSome_iff (s : List Char) : (scanPR s).isSome = true ↔ ContainsPR s := by
  constructor
  · induction s with
    | nil => intro h; exact absurd h (by decide)
    | cons c cs ih =>
      intro h
      rw [scanPR] at h
      cases hm : matchPRAt (c :: cs) with
      | some t =>
        obtain ⟨core, post, heq, hsh⟩ := matchPRAt_shaped _ _ hm
        exact ⟨[], core, post, by simp [heq], hsh⟩
      | none =>
        rw [hm] at h
        simp at h
        obtain ⟨pre, core, post, heq, hsh⟩ := ih h
        exact ⟨c :: pre, core, post, by simp [heq], hsh⟩
  · rintro ⟨pre, core, post, heq, hsh⟩
    subst heq
    induction pre with
    | nil => exact scanPR_isSome_of_matchPRAt _ (matchPRAt_of_shaped core post hsh)
    | cons a pre ih =>
      rw [List.cons_append, scanPR]
      cases hm : matchPRAt (a :: (pre ++ (core ++ post))) with
      | some t => simp
      | none => simpa using ih

/-! ## `handoffs.py` — chain build and teardown

The Mistral platform is modelled by a record of call outcomes: each
`client.beta.agents.create` either returns an agent id or raises
(`Except String String`), and each `client.beta.agents.update` either
succeeds or raises.  The embedded functions return the trace of platform
operations actually issued, in order, alongside the propagated outcome. -/

/-- The 4 agent ids of the pipeline (`handoffs.py` `PipelineAgents`). -/
structure PipelineAgents where
  planner_id : String
  reviewer_id : String
  verifier_id : String
  reporter_id : String
deriving DecidableEq

/-- One remote operation on the agents API. -/
inductive AgentOp where
  | create (stage : String)
  | update (agent_id : String) (handoffs : List String)
  | delete (agent_id : String)
deriving DecidableEq

/-- Outcomes of the platform calls `create_pipeline` makes, in source
order: four agent creations, then three handoff updates. -/
structure MistralStub where
  createPlanner : Except String String
  createReviewer : Except String String
  createVerifier : Except String String
  createReporter : Except String String
  updatePlanner : Except String Unit
  updateReviewer : Except String Unit
  updateVerifier : Except String Unit

/-- `handoffs.py` `create_pipeline` (lines 39–87): create the four agents in
order Planner, Reviewer, Verifier, Reporter, then set each non-terminal
agent's handoff to the next agent's id.  Any raised exception propagates at
once; the function body contains no exception handler and issues no
deletion. -/
def create_pipeline (c : MistralStub) : List AgentOp × Except String PipelineAgents :=
  match c.createPlanner with
  | .error e => ([.create "planner"], .error e)
  | .ok planner_id =>
  match c.createReviewer with
  | .error e => ([.create "planner", .create "reviewer"], .error e)
  | .ok reviewer_id =>
  match c.createVerifier with
  | .error e => ([.create "planner", .create "reviewer", .create "verifier"], .error e)
  | .ok verifier_id =>
  match c.createReporter with
  | .error e => ([.create "planner", .create "reviewer", .create "verifier",
                  .create "reporter"], .error e)
  | .ok reporter_id =>
  match c.updatePlanner with
  | .error e => ([.create "planner", .create "reviewer", .create "verifier",
                  .create "reporter", .update planner_id [reviewer_id]], .error e)
  | .ok _ =>
  match c.updateReviewer with
  | .error e => ([.create "planner", .create "reviewer", .create "verifier",
                  .create "reporter", .update planner_id [reviewer_id],
                  .update reviewer_id [verifier_id]], .error e)
  | .ok _ =>
  match c.updateVerifier with
  | .error e => ([.create "planner", .create "reviewer", .create "verifier",
                  .create "reporter", .update planner_id [reviewer_id],
                  .update reviewer_id [verifier_id],
                  .update verifier_id [reporter_id]], .error e)
  | .ok _ =>
    ([.create "planner", .create "reviewer", .create "verifier", .create "reporter",
      .update planner_id [reviewer_id], .update reviewer_id [verifier_id],
      .update verifier_id [reporter_id]],
     .ok ⟨planner_id, reviewer_id, verifier_id, reporter_id⟩)

/-- Number of deletion operations in a trace. -/
def countDeletes (ops : List AgentOp) : Nat :=
  (ops.filter fun op => match op with | .delete _ => true | _ => false).length

/-- The deletion loop of `delete_pipeline`: attempt each id in order; a
raised exception propagates immediately, ending the loop (the source has no
handler around `client.beta.agents.delete`). The first component is the
trace of ids whose deletion was attempted. -/
def runDeletes (delRes : String → Except String Unit) :
    List String → List String × Except String Unit
  | [] => ([], .ok ())
  | aid :: rest =>
    match delRes aid with
    | .error e => ([aid], .error e)
    | .ok _ =>
      let p := runDeletes delRes rest
      (aid :: p.1, p.2)

/-- `handoffs.py` `delete_pipeline` (lines 90–106): delete the four agents
in order Planner, Reviewer, Verifier, Reporter. -/
def delete_pipeline (delRes : String → Except String Unit) (agents : PipelineAgents) :
    List String × Except String Unit :=
  runDeletes delRes [agents.planner_id, agents.reviewer_id, agents.verifier_id,
                     agents.reporter_id]

/-- A platform stub whose verifier creation (stage 3 of 4) fails. -/
def failAtStage3 : MistralStub :=
  ⟨.ok "ag_plan", .ok "ag_rev", .error "quota exceeded", .ok "ag_rep",
   .ok (), .ok (), .ok ()⟩

/-- Concrete agent ids for teardown scenarios. -/
def stubAgents : PipelineAgents := ⟨"ag_plan", "ag_rev", "ag_ver", "ag_rep"⟩

/-- A deletion stub in which deleting the first (planner) agent fails. -/
def failFirstDelete : String → Except String Unit :=
  fun aid => if aid == "ag_plan" then .error "http 500" else .ok ()

/-! ## `tool_impl.py` / `github_client.py` — GitHub request construction

Each tool body builds a URL and headers and then issues the HTTP GET; an
embedded `..._request` function returns `.ok` with the request about to be
issued, or `.error` when the function raises before reaching the network.
The `GITHUB_TOKEN` environment variable is the `Option String` argument. -/

/-- An HTTP request as assembled immediately before the network call. -/
structure HttpRequest where
  url : String
  headers : List (String × String)
  params : List (String × String)
deriving DecidableEq

/-- Python `dict` key assignment on a header list: replace the value of an
existing key in place, else append. -/
def setHeader : List (String × String) → String → String → List (String × String)
  | [], k, v => [(k, v)]
  | (k', v') :: rest, k, v =>
    if k' == k then (k, v) :: rest else (k', v') :: setHeader rest k v

/-- The GitHub API base URL. -/
def githubApi : String := "https://api.github.com"

/-- `tool_impl.py` `_gh_headers` (lines 25–35): base headers, plus an
`Authorization` header only when `GITHUB_TOKEN` is set — no token is not an
error here. -/
def toolImpl_gh_headers (token : Option String) : List (String × String) :=
  [("Accept", "application/vnd.github.v3+json"),
   ("User-Agent", "MergeGuard/0.1"),
   ("X-GitHub-Api-Version", "2022-11-28")] ++
  (match token with
   | some t => [("Authorization", "Bearer " ++ t)]
   | none => [])

/-- `tool_impl.py` `_gh_diff_headers` (lines 38–42). -/
def toolImpl_gh_diff_headers (token : Option String) : List (String × String) :=
  setHeader (toolImpl_gh_headers token) "Accept" "application/vnd.github.v3.diff"

/-- `tool_impl.py` `fetch_pr_diff` (lines 54–64) up to its network call:
header construction cannot fail, so the GET is always issued. -/
def toolImpl_fetch_pr_diff_request (token : Option String) (owner repo : String)
    (pr_number : Nat) : Except String HttpRequest :=
  .ok ⟨githubApi ++ "/repos/" ++ owner ++ "/" ++ repo ++ "/pulls/" ++ toString pr_number,
       toolImpl_gh_diff_headers token, []⟩

/-- `tool_impl.py` `list_changed_files` (lines 74–84) up to its network
call. -/
def toolImpl_list_changed_files_request (token : Option String) (owner repo : String)
    (pr_number : Nat) : Except String HttpRequest :=
  .ok ⟨githubApi ++ "/repos/" ++ owner ++ "/" ++ repo ++ "/pulls/" ++ toString pr_number
         ++ "/files",
       toolImpl_gh_headers token, [("per_page", "100")]⟩

/-- `tool_impl.py` `read_file` (lines 101–117) up to its network call. -/
def toolImpl_read_file_request (token : Option String) (owner repo path ref : String) :
    Except String HttpRequest :=
  .ok ⟨githubApi ++ "/repos/" ++ owner ++ "/" ++ repo ++ "/contents/" ++ path,
       setHeader (toolImpl_gh_headers token) "Accept" "application/vnd.github.v3.raw",
       [("ref", ref)]⟩

/-- The `RuntimeError` message of `github_client.py` `_headers`. -/
def ghTokenError : String :=
  "GITHUB_TOKEN environment variable is required for GitHub API access"

/-- `github_client.py` `_headers` (lines 21–35): raises `RuntimeError` when
`GITHUB_TOKEN` is not set. -/
def githubClient_headers (token : Option String) : Except String (List (String × String)) :=
  match token with
  | none => .error ghTokenError
  | some t => .ok [("Authorization", "Bearer " ++ t),
                   ("Accept", "application/vnd.github.v3+json"),
                   ("X-GitHub-Api-Version", "2022-11-28")]

/-- `github_client.py` `fetch_pr_diff` (lines 41–58) up to its network call:
`_headers()` runs (and can raise) before the GET. -/
def githubClient_fetch_pr_diff_request (token : Option String) (owner repo : String)
    (pr_number : Nat) : Except String HttpRequest :=
  match githubClient_headers token with
  | .error e => .error e
  | .ok hs =>
    .ok ⟨githubApi ++ "/repos/" ++ owner ++ "/" ++ repo ++ "/pulls/" ++ toString pr_number,
         setHeader hs "Accept" "application/vnd.github.v3.diff", []⟩

/-- `github_client.py` `list_changed_files` (lines 61–76) up to its network
call. -/
def githubClient_list_changed_files_request (token : Option String) (owner repo : String)
    (pr_number : Nat) : Except String HttpRequest :=
  match githubClient_headers token with
  | .error e => .error e
  | .ok hs =>
    .ok ⟨githubApi ++ "/repos/" ++ owner ++ "/" ++ repo ++ "/pulls/" ++ toString pr_number
           ++ "/files",
         hs, []⟩

/-- `github_client.py` `read_file` (lines 92–108) up to its network call. -/
def githubClient_read_file_request (token : Option String) (owner repo path ref : String) :
    Except String HttpRequest :=
  match githubClient_headers token with
  | .error e => .error e
  | .ok hs =>
    .ok ⟨githubApi ++ "/repos/" ++ owner ++ "/" ++ repo ++ "/contents/" ++ path,
         hs, [("ref", ref)]⟩

/-! ## `check_style` — the three style-checker variants

`tool_impl.py check_style`, `github_client.py check_style` and
`main.py _check_style` are distinct implementations; `main.py` is the one
registered with the run context.  CPython's `ast.parse` is modelled by a
function argument `astP : String → Option SyntaxErr`: `some e` is a raised
`SyntaxError`, which every variant catches.  Python string helpers
(`rstrip`, `strip`, `upper`, `lower`, `split`, `splitlines`, `in`) are
embedded below on ASCII whitespace and case, which covers every character
class the checks consult. -/

/-- A caught Python `SyntaxError`: its `.msg` and possibly absent
`.lineno`. -/
structure SyntaxErr where
  msg : String
  lineno : Option Nat
deriving DecidableEq

/-- Python `str` whitespace (ASCII). -/
def pyIsSpace (c : Char) : Bool :=
  c == ' ' || c == '\t' || c == '\n' || c == '\r' || c == '\x0b' || c == '\x0c'

/-- Python `str.rstrip()`. -/
def pyRstrip (s : String) : String :=
  String.mk ((s.toList.reverse.dropWhile pyIsSpace).reverse)

/-- Python `str.strip()`. -/
def pyStrip (s : String) : String :=
  String.mk (((s.toList.dropWhile pyIsSpace).reverse.dropWhile pyIsSpace).reverse)

/-- Python `str.lower()`. -/
def pyLower (s : String) : String := String.mk (s.toList.map Char.toLower)

/-- Python `str.upper()`. -/
def pyUpper (s : String) : String := String.mk (s.toList.map Char.toUpper)

/-- Python's `needle in hay` on strings (substring containment). -/
def hasSub (needle : List Char) : List Char → Bool
  | [] => (stripLit needle []).isSome
  | c :: cs => (stripLit needle (c :: cs)).isSome || hasSub needle cs

/-- Python `str.startswith`. -/
def strStartsWith (pre s : String) : Bool := (stripLit pre.toList s.toList).isSome

/-- Splitting on `'\n'` (Python `str.split("\n")`): accumulator-based, the
accumulated current line held reversed. -/
def splitNlAux (cur : List Char) : List Char → List (List Char)
  | [] => [cur.reverse]
  | c :: cs => if c == '\n' then cur.reverse :: splitNlAux [] cs else splitNlAux (c :: cur) cs

/-- Python `code.split("\n")`, as `tool_impl.py` uses. -/
def pySplitNl (s : String) : List String := (splitNlAux [] s.toList).map String.mk

/-- Python `str.splitlines()` on `\n`, `\r\n` and `\r` boundaries (no
trailing empty line), as `github_client.py` and `main.py` use. -/
def splitlinesAux (cur : List Char) : List Char → List (List Char)
  | [] => if cur.isEmpty then [] else [cur.reverse]
  | '\r' :: '\n' :: cs => cur.reverse :: splitlinesAux [] cs
  | '\n' :: cs => cur.reverse :: splitlinesAux [] cs
  | '\r' :: cs => cur.reverse :: splitlinesAux [] cs
  | c :: cs => splitlinesAux (c :: cur) cs

/-- Python `code.splitlines()`. -/
def pySplitlines (s : String) : List String := (splitlinesAux [] s.toList).map String.mk

/-- Python `enumerate(lines, 1)`. -/
def enumFrom {α : Type} (i : Nat) : List α → List (Nat × α)
  | [] => []
  | x :: xs => (i, x) :: enumFrom (i + 1) xs

/-- `any(tag in line.upper() for tag in ("TODO", "FIXME", "HACK", "XXX"))`. -/
def hasTodoMarker (line : String) : Bool :=
  ["TODO", "FIXME", "HACK", "XXX"].any fun tag => hasSub tag.toList (pyUpper line).toList

/-- One issue of `tool_impl.py` `check_style`. -/
structure StyleIssue where
  line : Nat
  rule : String
  message : String
deriving DecidableEq

/-- `tool_impl.py` `check_style` lines 136–174: the per-line Python checks,
issues appended in source order (length, trailing whitespace, bare except,
TODO marker). -/
def toolImplLineIssues (i : Nat) (line : String) : List StyleIssue :=
  (if line.length > 120 then
    [⟨i, "line-too-long", "Line is " ++ toString line.length ++ " chars (max 120)"⟩]
   else []) ++
  (if line != pyRstrip line then [⟨i, "trailing-whitespace", "Trailing whitespace"⟩]
   else []) ++
  (if pyStrip line == "except:" || strStartsWith "except :" (pyStrip line) then
    [⟨i, "bare-except", "Bare except clause — catch specific exceptions"⟩]
   else []) ++
  (if hasTodoMarker line then [⟨i, "todo-comment", "Contains TODO/FIXME/HACK marker"⟩]
   else [])

/-- `tool_impl.py` `check_style` lines 191–208: the generic (non-Python)
per-line checks. -/
def genericLineIssues (i : Nat) (line : String) : List StyleIssue :=
  (if line.length > 120 then
    [⟨i, "line-too-long", "Line is " ++ toString line.length ++ " chars (max 120)"⟩]
   else []) ++
  (if line != pyRstrip line then [⟨i, "trailing-whitespace", "Trailing whitespace"⟩]
   else [])

/-- The issue list computed by `tool_impl.py` `check_style` (lines 125–208):
for Python, per-line heuristics then the `ast.parse` attempt whose
`SyntaxError` is appended as a final issue; for other languages, generic
line checks only. -/
def toolImplIssues (astP : String → Option SyntaxErr) (code language : String) :
    List StyleIssue :=
  if pyLower language == "python" || pyLower language == "py" then
    ((enumFrom 1 (pySplitNl code)).flatMap fun p => toolImplLineIssues p.1 p.2) ++
    (match astP code with
     | some e => [⟨e.lineno.getD 0, "syntax-error", "Syntax error: " ++ e.msg⟩]
     | none => [])
  else
    (enumFrom 1 (pySplitNl code)).flatMap fun p => genericLineIssues p.1 p.2

/-- JSON rendering of one `tool_impl.py` issue. -/
def styleIssueJson (x : StyleIssue) : Json :=
  .obj [("line", .num x.line), ("rule", .str x.rule), ("message", .str x.message)]

/-- `tool_impl.py` `check_style` lines 210–212: the returned JSON object —
`status: clean` with an empty list when no issue was found, else
`status: issues_found` with `count` and the issues. -/
def toolImpl_check_style (astP : String → Option SyntaxErr) (code language : String) :
    Json :=
  if (toolImplIssues astP code language).isEmpty then
    .obj [("status", .str "clean"), ("issues", .arr [])]
  else
    .obj [("status", .str "issues_found"),
          ("count", .num (toolImplIssues astP code language).length),
          ("issues", .arr ((toolImplIssues astP code language).map styleIssueJson))]

/-- One issue of `github_client.py` `check_style` (its `line` can be the
absent `lineno` of a `SyntaxError`). -/
structure GithubStyleIssue where
  type : String
  line : Option Nat
  message : String
deriving DecidableEq

/-- The issue list computed by `github_client.py` `check_style` (lines
117–171): for Python, the `ast.parse` attempt first, then per-line length
and tab checks; for other languages, length checks only. -/
def githubClientIssues (astP : String → Option SyntaxErr) (code language : String) :
    List GithubStyleIssue :=
  if pyLower language == "python" then
    (match astP code with
     | some e => [⟨"syntax_error", e.lineno, e.msg⟩]
     | none => []) ++
    ((enumFrom 1 (pySplitlines code)).flatMap fun p =>
      (if p.2.length > 120 then
        [⟨"line_too_long", some p.1,
          "Line exceeds 120 characters (" ++ toString p.2.length ++ ")"⟩]
       else []) ++
      (if p.2.toList.contains '\t' then
        [⟨"tabs", some p.1, "Use spaces instead of tabs"⟩]
       else []))
  else
    (enumFrom 1 (pySplitlines code)).flatMap fun p =>
      if p.2.length > 120 then
        [⟨"line_too_long", some p.1,
          "Line exceeds 120 characters (" ++ toString p.2.length ++ ")"⟩]
      else []

/-- JSON rendering of one `github_client.py` issue. -/
def githubIssueJson (x : GithubStyleIssue) : Json :=
  .obj [("type", .str x.type),
        ("line", match x.line with | some n => .num n | none => .null),
        ("message", .str x.message)]

/-- `github_client.py` `check_style` lines 173–175: the returned JSON
object (same status scheme as `tool_impl.py`, without a count field). -/
def githubClient_check_style (astP : String → Option SyntaxErr) (code language : String) :
    Json :=
  if (githubClientIssues astP code language).isEmpty then
    .obj [("status", .str "clean"), ("issues", .arr [])]
  else
    .obj [("status", .str "issues_found"),
          ("issues", .arr ((githubClientIssues astP code language).map githubIssueJson))]

/-- One issue of `main.py` `_check_style` (two shapes in the source dicts:
a syntax error, or an over-long line). -/
inductive MainStyleIssue where
  | synErr (message : String) (line : Option Nat)
  | lineTooLong (line : Nat) (length : Nat)
deriving DecidableEq

/-- The issue list computed by `main.py` `_check_style` (lines 102–116):
only for language exactly `python`, and only the `ast.parse` check plus a
line-length check; every other language gets an empty list. -/
def main_check_style_issues (astP : String → Option SyntaxErr) (code language : String) :
    List MainStyleIssue :=
  if language == "python" then
    (match astP code with
     | some e => [.synErr e.msg e.lineno]
     | none => []) ++
    ((enumFrom 1 (pySplitlines code)).flatMap fun p =>
      if p.2.length > 120 then [.lineTooLong p.1 p.2.length] else [])
  else []

/-- JSON rendering of one `main.py` issue. -/
def mainIssueJson : MainStyleIssue → Json
  | .synErr msg line =>
    .obj [("type", .str "syntax_error"), ("message", .str msg),
          ("line", match line with | some n => .num n | none => .null)]
  | .lineTooLong line len =>
    .obj [("type", .str "line_too_long"), ("line", .num line), ("length", .num len)]

/-- `main.py` `_check_style` line 116: the returned JSON object — always
`language`/`issues`/`count`, with no status field. -/
def main_check_style (astP : String → Option SyntaxErr) (code language : String) : Json :=
  .obj [("language", .str language),
        ("issues", .arr ((main_check_style_issues astP code language).map mainIssueJson)),
        ("count", .num (main_check_style_issues astP code language).length)]

/-! ## Supporting lemmas for the claim theorems -/

theorem enumFrom_mem_snd {α : Type} :
    ∀ (i : Nat) (l : List α) (p : Nat × α), p ∈ enumFrom i l → p.2 ∈ l := by
  intro i l
  induction l generalizing i with
  | nil => intro p hp; simp [enumFrom] at hp
  | cons x xs ih =>
    intro p hp
    rw [enumFrom] at hp
    rcases List.mem_cons.mp hp with h | h
    · simp [h]
    · exact List.mem_cons.mpr (Or.inr (ih _ p h))

theorem toolImplLineIssues_nil (i : Nat) (l : String)
    (hlen : l.length ≤ 120) (hrs : pyRstrip l = l)
    (hne : pyStrip l ≠ "except:") (hsw : strStartsWith "except :" (pyStrip l) = false)
    (htd : hasTodoMarker l = false) :
    toolImplLineIssues i l = [] := by
  unfold toolImplLineIssues
  rw [if_neg (by omega), if_neg (by simp [hrs]), if_neg (by simp [hne, hsw]),
    if_neg (by simp [htd])]
  rfl

/-! ## Claim theorems -/

/-- C1 counterexample: the report of Scenario C mutated to `total_issues = 1`
with an empty comment list — which the claim says the Report Validator
rejects — passes `ReviewReport` schema validation, because the schema
nowhere compares `total_issues` with the length of `comments`. -/
theorem c1_counterexample : (validateReviewReport scenarioCBadCount).isSome = true := by rfl

/-- C1 (amended): the `ReviewReport` schema validation accepts the
well-formed Scenario C report and rejects an out-of-range score, an
enum violation, and a missing required field; but it accepts the report
with `total_issues = 1` and empty comments, and the pipeline's own terminal
step returns any successfully parsed JSON unvalidated. -/
theorem c1_validator_behaviour :
    validateReviewReport scenarioCReport =
      some ⟨"Looks good overall.", [], 95, .approve, 3, 0⟩ ∧
    validateReviewReport scenarioCBadCount =
      some ⟨"Looks good overall.", [], 95, .approve, 3, 1⟩ ∧
    validateReviewReport scenarioCScore101 = none ∧
    validateReviewReport scenarioCBadEnum = none ∧
    validateReviewReport scenarioCNoSummary = none ∧
    run_terminal_parse (some scenarioCBadCount) = .ok scenarioCBadCount :=
  ⟨rfl, rfl, rfl, rfl, rfl, rfl⟩

/-- C2 counterexample: when creation of stage 3 of 4 (the Verifier) fails,
`create_pipeline` issues no deletion at all — not the 2 deletion attempts
the claim requires — before propagating the creation error. -/
theorem c2_counterexample :
    create_pipeline failAtStage3 =
      ([.create "planner", .create "reviewer", .create "verifier"],
       .error "quota exceeded") ∧
    countDeletes (create_pipeline failAtStage3).1 = 0 :=
  ⟨rfl, rfl⟩

/-- C2 (amended): whatever the outcomes of the platform calls,
`create_pipeline` never attempts any deletion — a failed build propagates
its error leaving every already-created stage undeleted. -/
theorem c2_no_cleanup_on_failure (c : MistralStub) :
    countDeletes (create_pipeline c).1 = 0 := by
  obtain ⟨cp, cr, cv, crp, u1, u2, u3⟩ := c
  cases cp <;> cases cr <;> cases cv <;> cases crp <;> cases u1 <;> cases u2 <;> cases u3 <;>
    rfl

/-- C3 counterexample: a deletion failure on the first handle propagates
out of `delete_pipeline` and stops the loop — one attempt instead of four,
the remaining three handles never attempted, nothing swallowed. -/
theorem c3_counterexample :
    delete_pipeline failFirstDelete stubAgents = (["ag_plan"], .error "http 500") := by rfl

/-- C3 (amended): when every deletion call succeeds, `delete_pipeline`
attempts exactly the four created handles in order; a failing deletion
instead propagates and cuts the loop short (see the counterexample). -/
theorem c3_teardown_attempts (delRes : String → Except String Unit) (a : PipelineAgents)
    (h : ∀ aid, delRes aid = .ok ()) :
    delete_pipeline delRes a =
      ([a.planner_id, a.reviewer_id, a.verifier_id, a.reporter_id], .ok ()) := by
  simp [delete_pipeline, runDeletes, h]

/-- C3 witness: the amended theorem applied to an all-successful deletion
stub on the concrete agent ids. -/
theorem c3_teardown_attempts_witness :
    delete_pipeline (fun _ => .ok ()) stubAgents =
      (["ag_plan", "ag_rev", "ag_ver", "ag_rep"], .ok ()) :=
  c3_teardown_attempts (fun _ => .ok ()) stubAgents (fun _ => rfl)

/-- C4: a diff at or below 120,000 characters is returned unmodified and a
longer one is cut to exactly its first 120,000 characters plus the
truncation marker; file content likewise at the 80,000-character ceiling. -/
theorem c4_truncation (s t u v : String) (hs : s.length ≤ 120000) (ht : 120000 < t.length)
    (hu : u.length ≤ 80000) (hv : 80000 < v.length) :
    fetch_pr_diff_truncate s = s ∧
    fetch_pr_diff_truncate t = t.take 120000 ++ diffTruncMarker ∧
    read_file_truncate u = u ∧
    read_file_truncate v = v.take 80000 ++ fileTruncMarker := by
  unfold fetch_pr_diff_truncate read_file_truncate
  refine ⟨?_, ?_, ?_, ?_⟩
  · rw [if_neg (by omega)]
  · rw [if_pos (by omega)]
  · rw [if_neg (by omega)]
  · rw [if_pos (by omega)]

theorem bigDiff_length : bigDiff.length = 120001 := by
  show (List.replicate 120001 'a').length = 120001
  exact List.length_replicate 120001 'a'

theorem bigFile_length : bigFile.length = 80001 := by
  show (List.replicate 80001 'b').length = 80001
  exact List.length_replicate 80001 'b'

/-- C4 witness: the truncation theorem at the empty string and at concrete
strings one character over each ceiling. -/
theorem c4_truncation_witness :
    fetch_pr_diff_truncate "" = "" ∧
    fetch_pr_diff_truncate bigDiff = bigDiff.take 120000 ++ diffTruncMarker ∧
    read_file_truncate "" = "" ∧
    read_file_truncate bigFile = bigFile.take 80000 ++ fileTruncMarker :=
  c4_truncation "" bigDiff "" bigFile (by decide)
    (by rw [bigDiff_length]; omega)
    (by decide)
    (by rw [bigFile_length]; omega)

/-- C5 counterexample: the spec's own Scenario A URL, on host `host` rather
than `github.com`, is rejected by `parse_pr_url` (a `ValueError`), not
parsed to `("acme", "widgets", 42)` as the claim states. -/
theorem c5_counterexample : parse_pr_url "https://host/acme/widgets/pull/42" = none := by
  decide

/-- C5 (amended): `parse_pr_url` parses `github.com` PR URLs to
`(owner, repo, pr_number)` and raises on URLs missing a
`github.com/owner/repo/pull/<digits>` segment — including well-shaped PR
URLs on any other host. -/
theorem c5_github_only_parsing :
    parse_pr_url "https://github.com/acme/widgets/pull/42" = some ("acme", "widgets", 42) ∧
    parse_pr_url "https://github.com/acme/widgets" = none ∧
    parse_pr_url "https://host/acme/widgets/pull/42" = none := by
  refine ⟨?_, ?_, ?_⟩ <;> decide

/-- C6 counterexample: with no `GITHUB_TOKEN`, the `tool_impl.py` diff
fetch raises no configuration error — it issues the GET anyway, with no
`Authorization` header. -/
theorem c6_counterexample :
    toolImpl_fetch_pr_diff_request none "acme" "widgets" 42 =
      .ok ⟨"https://api.github.com/repos/acme/widgets/pulls/42",
           [("Accept", "application/vnd.github.v3.diff"),
            ("User-Agent", "MergeGuard/0.1"),
            ("X-GitHub-Api-Version", "2022-11-28")], []⟩ := by
  rfl

/-- C6 (amended): only the `github_client.py` endpoint variants raise a
configuration error before any network call when the bearer credential is
absent; the `tool_impl.py` variants issue the request unauthenticated. -/
theorem c6_token_check_variants (owner repo path ref : String) (pr_number : Nat) :
    githubClient_fetch_pr_diff_request none owner repo pr_number = .error ghTokenError ∧
    githubClient_list_changed_files_request none owner repo pr_number =
      .error ghTokenError ∧
    githubClient_read_file_request none owner repo path ref = .error ghTokenError ∧
    (∃ req, toolImpl_fetch_pr_diff_request none owner repo pr_number = .ok req ∧
      req.headers.lookup "Authorization" = none) ∧
    (∃ req, toolImpl_list_changed_files_request none owner repo pr_number = .ok req ∧
      req.headers.lookup "Authorization" = none) ∧
    (∃ req, toolImpl_read_file_request none owner repo path ref = .ok req ∧
      req.headers.lookup "Authorization" = none) := by
  exact ⟨rfl, rfl, rfl, ⟨_, rfl, by rfl⟩, ⟨_, rfl, by rfl⟩, ⟨_, rfl, by rfl⟩⟩

/-- C7: a `SyntaxError` raised by `ast.parse` is caught and becomes an
issue entry of the returned list — in both the `tool_impl.py` variant (rule
`syntax-error`, appended last) and the registered `main.py` variant (type
`syntax_error`, first) — rather than escaping as an exception. -/
theorem c7_syntax_error_is_issue (astP : String → Option SyntaxErr) (code : String)
    (e : SyntaxErr) (h : astP code = some e) :
    (⟨e.lineno.getD 0, "syntax-error", "Syntax error: " ++ e.msg⟩ : StyleIssue) ∈
      toolImplIssues astP code "python" ∧
    MainStyleIssue.synErr e.msg e.lineno ∈ main_check_style_issues astP code "python" := by
  constructor
  · unfold toolImplIssues
    rw [if_pos (by decide), h]
    exact List.mem_append_right _ (by simp)
  · unfold main_check_style_issues
    rw [if_pos (by decide), h]
    exact List.mem_append_left _ (by simp)

/-- C7 witness: a concrete snippet whose parse fails with a caught
`SyntaxError` on line 1. -/
theorem c7_syntax_error_is_issue_witness :
    (⟨1, "syntax-error", "Syntax error: unexpected EOF while parsing"⟩ : StyleIssue) ∈
      toolImplIssues (fun _ => some ⟨"unexpected EOF while parsing", some 1⟩)
        "def f(:" "python" ∧
    MainStyleIssue.synErr "unexpected EOF while parsing" (some 1) ∈
      main_check_style_issues (fun _ => some ⟨"unexpected EOF while parsing", some 1⟩)
        "def f(:" "python" :=
  c7_syntax_error_is_issue (fun _ => some ⟨"unexpected EOF while parsing", some 1⟩)
    "def f(:" ⟨"unexpected EOF while parsing", some 1⟩ rfl

/-- C8 counterexample: the `check_style` variant `main.py` actually
registers with the run context returns an empty issue list on Scenario D's
input `"x=1\t"` — no tabs/whitespace-class entry. -/
theorem c8_counterexample :
    main_check_style_issues (fun _ => none) "x=1\t" "python" = [] := by rfl

/-- C8 (amended): on `"x=1\t"` the `tool_impl.py` variant reports a
trailing-whitespace issue and the `github_client.py` variant a tabs issue
(the registered `main.py` variant reports nothing — see the
counterexample); and a syntactically valid python snippet all of whose
lines pass the length, trailing-whitespace, bare-except and TODO-marker
checks yields an empty issue list. -/
theorem c8_style_scenarios (astP : String → Option SyntaxErr) (code : String)
    (h1 : astP code = none)
    (h2 : ∀ l ∈ pySplitNl code, l.length ≤ 120 ∧ pyRstrip l = l ∧
      pyStrip l ≠ "except:" ∧ strStartsWith "except :" (pyStrip l) = false ∧
      hasTodoMarker l = false) :
    toolImplIssues astP code "python" = [] ∧
    toolImplIssues (fun _ => none) "x=1\t" "python" =
      [⟨1, "trailing-whitespace", "Trailing whitespace"⟩] ∧
    githubClientIssues (fun _ => none) "x=1\t" "python" =
      [⟨"tabs", some 1, "Use spaces instead of tabs"⟩] := by
  refine ⟨?_, by rfl, by rfl⟩
  unfold toolImplIssues
  rw [if_pos (by decide), h1]
  simp only [List.append_nil]
  rw [List.flatMap_eq_nil_iff]
  intro p hp
  obtain ⟨hlen, hrs, hne, hsw, htd⟩ := h2 p.2 (enumFrom_mem_snd 1 _ p hp)
  exact toolImplLineIssues_nil p.1 p.2 hlen hrs hne hsw htd

/-- C8 witness: the amended theorem applied to the clean one-line snippet
`"x = 1"`. -/
theorem c8_style_scenarios_witness :
    toolImplIssues (fun _ => none) "x = 1" "python" = [] ∧
    toolImplIssues (fun _ => none) "x=1\t" "python" =
      [⟨1, "trailing-whitespace", "Trailing whitespace"⟩] ∧
    githubClientIssues (fun _ => none) "x=1\t" "python" =
      [⟨"tabs", some 1, "Use spaces instead of tabs"⟩] :=
  c8_style_scenarios (fun _ => none) "x = 1" rfl (by decide)

/-- C9: `parse_pr_url` is substring search, not an anchored-URL parse — it
succeeds exactly on strings containing a
`github.com/<segment>/<segment>/pull/<digits>` substring, whatever
surrounds it, and so rejects well-shaped PR URLs on any other host. -/
theorem c9_regex_search_contract :
    (∀ s : String, (parse_pr_url s).isSome = true ↔ ContainsPR s.toList) ∧
    parse_pr_url "see github.com/acme/widgets/pull/42 for details" =
      some ("acme", "widgets", 42) ∧
    parse_pr_url "https://example.org/acme/widgets/pull/42" = none := by
  refine ⟨fun s => scanPR_isSome_iff s.toList, by decide, by decide⟩

/-- C10: both JSON-producing `check_style` variants return
`status: "clean"` exactly when the issue list is empty and
`status: "issues_found"` whenever it is non-empty, the returned issues
field carries exactly that list, and the `tool_impl.py` `count` field is
present exactly on the non-empty case and equals the list's length. -/
theorem c10_status_field_invariant (astP : String → Option SyntaxErr)
    (code language : String) :
    (jsonField (toolImpl_check_style astP code language) "status" =
        some (.str "clean") ↔ toolImplIssues astP code language = []) ∧
    (toolImplIssues astP code language ≠ [] →
      jsonField (toolImpl_check_style astP code language) "status" =
        some (.str "issues_found")) ∧
    jsonField (toolImpl_check_style astP code language) "issues" =
      some (.arr ((toolImplIssues astP code language).map styleIssueJson)) ∧
    jsonField (toolImpl_check_style astP code language) "count" =
      (if toolImplIssues astP code language = [] then none
       else some (.num (toolImplIssues astP code language).length)) ∧
    (jsonField (githubClient_check_style astP code language) "status" =
        some (.str "clean") ↔ githubClientIssues astP code language = []) ∧
    (githubClientIssues astP code language ≠ [] →
      jsonField (githubClient_check_style astP code language) "status" =
        some (.str "issues_found")) ∧
    jsonField (githubClient_check_style astP code language) "issues" =
      some (.arr ((githubClientIssues astP code language).map githubIssueJson)) := by
  rcases hI : toolImplIssues astP code language with _ | ⟨x, xs⟩ <;>
  rcases hG : githubClientIssues astP code language with _ | ⟨y, ys⟩ <;>
    simp [toolImpl_check_style, githubClient_check_style, jsonField, jsonGet, hI, hG]
